import Mathlib

/-!
Verification of `Python/crossinterp.c` (cross-interpreter data sharing).

The development is a shallow embedding of the C source: Python objects are
modelled by the inductive `PyValue`, the payload held in a
`_PyCrossInterpreterData` struct by `SharedData`, the struct itself by
`XIData`, the type registry by a list of `RegItem`, namespaces by lists of
`NsItem`, and the session/exception machinery by explicit state records.
Machine pointers that carry an inline scalar are modelled by the scalar
itself; allocation is assumed to succeed (out-of-memory paths of the C are
not modelled).  Functions keep the names of their C counterparts where
possible.
-/

set_option linter.unusedVariables false

/-- A Python object, restricted to the kinds this file manipulates.
`obj ty` stands for an instance of an arbitrary non-builtin class with
type identifier `ty`.  Floating point objects are carried by the bit
pattern of their C `double`, since the source only ever copies the value
verbatim. -/
inductive PyValue where
  | none
  | bool (b : Bool)
  | int (n : Int)
  | float (bits : Nat)
  | bytes (bs : List Nat)
  | str (s : List Char)
  | obj (ty : Nat)
deriving DecidableEq, Repr

/-- Type identifier of a value (the `Py_TYPE` of the object); builtin types
get the fixed identifiers 0..5, `obj ty` has identifier `ty`. -/
def typeIdOf : PyValue → Nat
  | .none => 0
  | .bool _ => 1
  | .int _ => 2
  | .float _ => 3
  | .bytes _ => 4
  | .str _ => 5
  | .obj ty => ty

/-- The payload behind `data->data`: either an inline scalar smuggled in the
pointer (`_long_shared`, `_bool_shared`), or one of the heap structs
`_shared_bytes_data`, `_shared_str_data`, or the malloc-ed `double` of
`_float_shared`. -/
inductive SharedData where
  | scalar (n : Int)
  | bytesData (bytes : List Nat) (len : Nat)
  | strData (kind : Nat) (buffer : List Char) (len : Nat)
  | floatData (bits : Nat)
deriving DecidableEq, Repr

/-- Which `xid_newobjectfunc` is stored in `data->new_object`. -/
inductive NewObjFunc where
  | noneObj
  | boolObj
  | longObj
  | floatObj
  | bytesObj
  | strObj
deriving DecidableEq, Repr

/-- `_PyCrossInterpreterData`: `data` is the payload pointer (`Option.none`
models NULL), `obj` the retained strong reference, `interpid` the owning
interpreter id, `newObject` the `new_object` function pointer, and `free`
records whether `data->free` is set (the only free function ever stored is
`PyMem_RawFree`). -/
structure XIData where
  data : Option SharedData
  obj : Option PyValue
  interpid : Int
  newObject : Option NewObjFunc
  free : Bool
deriving DecidableEq, Repr

/-- `_PyCrossInterpreterData_Init`: reset the struct, store the payload and
the retained object, record the owning interpreter (`-1` when no interpreter
is supplied) and the `new_object` function; `free` stays unset. -/
def _PyCrossInterpreterData_Init (interp : Option Int) (shared : Option SharedData)
    (obj : Option PyValue) (newObject : NewObjFunc) : XIData :=
  { data := shared
    obj := obj
    interpid := interp.getD (-1)
    newObject := some newObject
    free := false }

/-- `_PyCrossInterpreterData_InitWithSize`: like `_PyCrossInterpreterData_Init`
with a NULL payload, then a raw allocation is stored in `data->data` and
`data->free` is set to `PyMem_RawFree`.  The caller fills the allocation,
which the per-kind functions below do by replacing the `data` field. -/
def _PyCrossInterpreterData_InitWithSize (interp : Int) (obj : Option PyValue)
    (newObject : NewObjFunc) : XIData :=
  { _PyCrossInterpreterData_Init (some interp) Option.none obj newObject with free := true }

/-- `_check_xidata`: a populated struct must carry a non-negative owning
interpreter id and a `new_object` function. -/
def _check_xidata (d : XIData) : Bool :=
  decide (0 ≤ d.interpid) && d.newObject.isSome

/-- `_none_shared`: NULL payload, no retained object, reconstructed by
`_new_none_object`. -/
def _none_shared (interp : Int) (v : PyValue) : Option XIData :=
  some (_PyCrossInterpreterData_Init (some interp) Option.none Option.none .noneObj)

/-- `_bool_shared`: the truth of the object (`Py_IsTrue`, identity with the
`True` singleton) is smuggled in the payload pointer. -/
def _bool_shared (interp : Int) (v : PyValue) : Option XIData :=
  some (_PyCrossInterpreterData_Init (some interp)
    (some (.scalar (if v = .bool true then 1 else 0))) Option.none .boolObj)

/-- `PY_SSIZE_T_MIN` for a 64-bit `Py_ssize_t`. -/
def pySsizeMin : Int := -(2 ^ 63)

/-- `PY_SSIZE_T_MAX` for a 64-bit `Py_ssize_t`. -/
def pySsizeMax : Int := 2 ^ 63 - 1

/-- `_long_shared`: `PyLong_AsSsize_t` overflows outside the `Py_ssize_t`
range; a fitting value is smuggled in the payload pointer. -/
def _long_shared (interp : Int) (v : PyValue) : Option XIData :=
  match v with
  | .int n =>
      if pySsizeMin ≤ n ∧ n ≤ pySsizeMax then
        some (_PyCrossInterpreterData_Init (some interp) (some (.scalar n))
          Option.none .longObj)
      else
        Option.none
  | _ => Option.none

/-- `_float_shared`: allocates a `double` (so `free` is set), copies the
value into it; no object is retained. -/
def _float_shared (interp : Int) (v : PyValue) : Option XIData :=
  match v with
  | .float bits =>
      some { _PyCrossInterpreterData_InitWithSize interp Option.none .floatObj with
               data := some (.floatData bits) }
  | _ => Option.none

/-- `_bytes_shared`: allocates a `_shared_bytes_data` (so `free` is set),
retains the object and stores a view of its buffer and length. -/
def _bytes_shared (interp : Int) (v : PyValue) : Option XIData :=
  match v with
  | .bytes bs =>
      some { _PyCrossInterpreterData_InitWithSize interp (some v) .bytesObj with
               data := some (.bytesData bs bs.length) }
  | _ => Option.none

/-- `PyUnicode_KIND`: 1, 2 or 4 bytes per code unit depending on the widest
character of the string. -/
def pyUnicodeKind (s : List Char) : Nat :=
  if s.all (fun c => c.val < 256) then 1
  else if s.all (fun c => c.val < 65536) then 2
  else 4

/-- `_str_shared`: allocates a `_shared_str_data` (so `free` is set),
retains the object and stores its kind, buffer and length. -/
def _str_shared (interp : Int) (v : PyValue) : Option XIData :=
  match v with
  | .str s =>
      some { _PyCrossInterpreterData_InitWithSize interp (some v) .strObj with
               data := some (.strData (pyUnicodeKind s) s s.length) }
  | _ => Option.none

/-- The `_new_*_object` functions.  `_new_none_object` ignores the payload;
`_new_bool_object` tests the payload pointer against NULL; `_new_long_object`
casts the payload pointer back to `Py_ssize_t` (a NULL pointer casts to 0);
the remaining ones read the heap struct the matching getdata filled.  A
payload that does not match the function (never produced by the source) has
no defined result. -/
def runNewObject : NewObjFunc → Option SharedData → Option PyValue
  | .noneObj, _ => some .none
  | .boolObj, some (.scalar n) => some (.bool (n ≠ 0))
  | .boolObj, Option.none => some (.bool false)
  | .longObj, some (.scalar n) => some (.int n)
  | .longObj, Option.none => some (.int 0)
  | .floatObj, some (.floatData bits) => some (.float bits)
  | .bytesObj, some (.bytesData bs len) => some (.bytes (bs.take len))
  | .strObj, some (.strData kind buffer len) => some (.str (buffer.take len))
  | _, _ => Option.none

/-- `_PyCrossInterpreterData_NewObject`: invoke `data->new_object` on the
struct (a NULL function, ruled out by `_check_xidata`, fails). -/
def _PyCrossInterpreterData_NewObject (d : XIData) : Option PyValue :=
  match d.newObject with
  | some f => runNewObject f d.data
  | Option.none => Option.none

/- ## Type registry -/

/-- Which `crossinterpdatafunc` a registry entry stores. -/
inductive GetData where
  | noneShared
  | boolShared
  | longShared
  | floatShared
  | bytesShared
  | strShared
  | user (n : Nat)
deriving DecidableEq, Repr

/-- A `_xidregitem`: type identifier, registration reference count, the
getdata function, and for heap types a weak tracking reference —
`Option.none` models a static type (no weakref), `some alive` a heap type
whose weakly referenced class is still alive iff `alive`. -/
structure RegItem where
  cls : Nat
  refcount : Nat
  getdata : GetData
  weakAlive : Option Bool
deriving DecidableEq, Repr

/-- `_xidregistry_find_type`: scan for an exact type match, lazily evicting
entries whose weakly tracked class has been destroyed; returns the match and
the registry as mutated by the evictions (the scan stops at the match). -/
def _xidregistry_find_type : List RegItem → Nat → Option RegItem × List RegItem
  | [], _ => (Option.none, [])
  | e :: rest, cls =>
    if e.weakAlive = some false then
      _xidregistry_find_type rest cls
    else if e.cls = cls then
      (some e, e :: rest)
    else
      ((_xidregistry_find_type rest cls).1, e :: (_xidregistry_find_type rest cls).2)

/-- `_PyCrossInterpreterData_UnregisterClass`: find the entry (evicting dead
ones along the way), decrement its reference count, remove it when the count
reaches zero, and report whether an entry existed. -/
def _PyCrossInterpreterData_UnregisterClass : List RegItem → Nat → Bool × List RegItem
  | [], _ => (false, [])
  | e :: rest, cls =>
    if e.weakAlive = some false then
      _PyCrossInterpreterData_UnregisterClass rest cls
    else if e.cls = cls then
      if e.refcount - 1 = 0 then (true, rest)
      else (true, { e with refcount := e.refcount - 1 } :: rest)
    else
      ((_PyCrossInterpreterData_UnregisterClass rest cls).1,
       e :: (_PyCrossInterpreterData_UnregisterClass rest cls).2)

/-- `_lookup_getdata_from_registry` (result only; the eviction mutations of
the scan do not change what is found). -/
def _lookup_getdata_from_registry (reg : List RegItem) (cls : Nat) : Option GetData :=
  (_xidregistry_find_type reg cls).1.map (fun e => e.getdata)

/-- Dispatch table for the getdata functions: the six builtin producers, and
no behaviour for user functions (used only where a user getdata is never
reached). -/
def runBuiltin : GetData → Int → PyValue → Option XIData
  | .noneShared, i, v => _none_shared i v
  | .boolShared, i, v => _bool_shared i v
  | .longShared, i, v => _long_shared i v
  | .floatShared, i, v => _float_shared i v
  | .bytesShared, i, v => _bytes_shared i v
  | .strShared, i, v => _str_shared i v
  | .user _, _, _ => Option.none

/-- `_register_builtins_for_crossinterpreter_data` pushes None, int, bytes,
str, bool, float in that order onto the head of the global registry, each
with reference count 1; all six classes are static types (no weakref). -/
def builtinRegistry : List RegItem :=
  [ ⟨3, 1, .floatShared, Option.none⟩
  , ⟨1, 1, .boolShared, Option.none⟩
  , ⟨5, 1, .strShared, Option.none⟩
  , ⟨4, 1, .bytesShared, Option.none⟩
  , ⟨2, 1, .longShared, Option.none⟩
  , ⟨0, 1, .noneShared, Option.none⟩ ]

/-- How `_PyObject_GetCrossInterpreterData` fails. -/
inductive ProduceErr where
  | notShareable
  | getdataFailed
  | invalidData
deriving DecidableEq, Repr

/-- `_PyObject_GetCrossInterpreterData`: reset the struct, look the type up
in the registry (failure raises `NotShareableError`), run the getdata
function (parametrised by `run`, so arbitrary registered producers are
covered), then overwrite `interpid` with the current interpreter id and
validate with `_check_xidata` (failure releases the result and errors). -/
def _PyObject_GetCrossInterpreterData (reg : List RegItem)
    (run : GetData → Int → PyValue → Option XIData)
    (interpid : Int) (v : PyValue) : Except ProduceErr XIData :=
  match _lookup_getdata_from_registry reg (typeIdOf v) with
  | Option.none => Except.error ProduceErr.notShareable
  | some g =>
    match run g interpid v with
    | Option.none => Except.error ProduceErr.getdataFailed
    | some d0 =>
      let d : XIData := { d0 with interpid := interpid }
      if _check_xidata d then Except.ok d else Except.error ProduceErr.invalidData

/-- Produce a handle and immediately reconstruct a value from it (the round
trip of the spec); a failed produce yields nothing. -/
def reconstructProduced (reg : List RegItem) (run : GetData → Int → PyValue → Option XIData)
    (interpid : Int) (v : PyValue) : Option PyValue :=
  match _PyObject_GetCrossInterpreterData reg run interpid v with
  | Except.ok d => _PyCrossInterpreterData_NewObject d
  | Except.error _ => Option.none

/-- The values handled by the builtin producers, with the `Py_ssize_t`
bound of `_long_shared` on integers. -/
def isBuiltinShareable : PyValue → Prop
  | .int n => pySsizeMin ≤ n ∧ n ≤ pySsizeMax
  | .obj _ => False
  | _ => True

/- ## Release protocol -/

/-- Observable resource actions performed while releasing a struct. -/
inductive RelAct where
  | freePayload
  | decrefObj
  | rawFreeHandle
  | pendingClear (interp : Int)
  | pendingClearRawFree (interp : Int)
deriving DecidableEq, Repr

/-- Environment of a release call.  `_PyInterpreterState_LookUpID` lives in
pystate.c, outside this source tree; modelled from the spec as membership of
the owning id in the set of live interpreter ids. -/
structure RelEnv where
  curInterp : Int
  liveInterps : List Int
deriving DecidableEq, Repr

/-- `_xidata_clear`: free the payload when it is set and a free function is
set, then drop the retained object; both fields end NULL. -/
def _xidata_clear (d : XIData) : XIData × List RelAct :=
  let freed : List RelAct :=
    match d.data with
    | some _ => if d.free then [RelAct.freePayload] else []
    | Option.none => []
  let decs : List RelAct :=
    match d.obj with
    | some _ => [RelAct.decrefObj]
    | Option.none => []
  ({ d with data := Option.none, obj := Option.none }, freed ++ decs)

/-- `_Py_CallInInterpreter` applied to `_call_clear_xidata`: run the clear
synchronously on the current interpreter, otherwise post it to the owning
pending-call queue of the owning interpreter (the struct is untouched for now).  Returns
the result code, the struct state (`Option.none` once its storage is gone)
and the actions performed. -/
def _Py_CallInInterpreter (env : RelEnv) (interp : Int) (d : XIData) :
    Int × Option XIData × List RelAct :=
  if interp = env.curInterp then
    (0, some (_xidata_clear d).1, (_xidata_clear d).2)
  else
    (0, some d, [RelAct.pendingClear interp])

/-- `_Py_CallInInterpreterAndRawFree` applied to `_call_clear_xidata`: as
`_Py_CallInInterpreter`, but the struct storage itself is raw-freed after
the clear runs (immediately on the synchronous path, by the pending-call
machinery on the deferred one). -/
def _Py_CallInInterpreterAndRawFree (env : RelEnv) (interp : Int) (d : XIData) :
    Int × Option XIData × List RelAct :=
  if interp = env.curInterp then
    (0, Option.none, (_xidata_clear d).2 ++ [RelAct.rawFreeHandle])
  else
    (0, some d, [RelAct.pendingClearRawFree interp])

/-- `_xidata_release`: nothing to release when the payload is NULL or has no
free function and no object is retained (raw-freeing the struct storage if
requested); otherwise resolve the owning interpreter — failing, and
raw-freeing the storage if requested, when it no longer exists — and run or
post the clear there. -/
def _xidata_release (env : RelEnv) (d : XIData) (rawfree : Bool) :
    Int × Option XIData × List RelAct :=
  if (d.data = Option.none ∨ d.free = false) ∧ d.obj = Option.none then
    if rawfree then (0, Option.none, [RelAct.rawFreeHandle])
    else (0, some { d with data := Option.none }, [])
  else if d.interpid ∈ env.liveInterps then
    if rawfree then _Py_CallInInterpreterAndRawFree env d.interpid d
    else _Py_CallInInterpreter env d.interpid d
  else
    if rawfree then (-1, Option.none, [RelAct.rawFreeHandle])
    else (-1, some d, [])

/-- `_PyCrossInterpreterData_Release`: clear the payload on the owning
interpreter; the struct storage is owned elsewhere. -/
def _PyCrossInterpreterData_Release (env : RelEnv) (d : XIData) :
    Int × Option XIData × List RelAct :=
  _xidata_release env d false

/-- `_PyCrossInterpreterData_ReleaseAndRawFree`: clear the payload on the
owning interpreter, then raw-free the struct storage as well. -/
def _PyCrossInterpreterData_ReleaseAndRawFree (env : RelEnv) (d : XIData) :
    Int × Option XIData × List RelAct :=
  _xidata_release env d true

/-- `_release_xid_data`, exactly as in the source: note that the dispatch is
inverted — `rawfree` true selects `_PyCrossInterpreterData_Release` and
`rawfree` false selects `_PyCrossInterpreterData_ReleaseAndRawFree`.  When
the release reports that the owning interpreter is gone, the struct is
cleared locally. -/
def _release_xid_data (env : RelEnv) (d : XIData) (rawfree : Bool) :
    Int × Option XIData × List RelAct :=
  let r := if rawfree then _PyCrossInterpreterData_Release env d
           else _PyCrossInterpreterData_ReleaseAndRawFree env d
  if r.1 < 0 then
    match r.2.1 with
    | some d2 => (r.1, some (_xidata_clear d2).1, r.2.2 ++ (_xidata_clear d2).2)
    | Option.none => r
  else r

/-- Modelled from the spec: the same helper with the dispatch the spec (and
the rest of the file) describes — the variant that also frees the struct
storage is used exactly when `rawfree` is requested. -/
def _release_xid_data_spec (env : RelEnv) (d : XIData) (rawfree : Bool) :
    Int × Option XIData × List RelAct :=
  let r := if rawfree then _PyCrossInterpreterData_ReleaseAndRawFree env d
           else _PyCrossInterpreterData_Release env d
  if r.1 < 0 then
    match r.2.1 with
    | some d2 => (r.1, some (_xidata_clear d2).1, r.2.2 ++ (_xidata_clear d2).2)
    | Option.none => r
  else r

/- ## Exception snapshots -/

/-- A live Python exception, reduced to what the snapshot machinery reads
from it: the name of its type and its rendered message. -/
structure PyErrState where
  typeName : String
  msg : String
deriving DecidableEq, Repr

/-- `_Py_excinfo`: independently copied type name and message. -/
structure PyExcinfo where
  type : Option String
  msg : Option String
deriving DecidableEq, Repr

/-- `_Py_excinfo_InitFromException`: copy out the type name and the rendered
message (the out-of-memory degradations of the C are not modelled: copying
succeeds). -/
def _Py_excinfo_InitFromException (e : PyErrState) : PyExcinfo :=
  ⟨some e.typeName, some e.msg⟩

/-- The exception ultimately set by an apply: either an instance of class
`exctype` with a rendered message, or a bare instance (`PyErr_SetNone`). -/
inductive RaisedExc where
  | withMsg (exctype : String) (msg : String)
  | bare (exctype : String)
deriving DecidableEq, Repr

/-- `_Py_excinfo_Apply`: raise an `exctype` rendered as "type: msg" if both
were captured, as just the type name or just the message if only one was,
and bare if neither was. -/
def _Py_excinfo_Apply (info : PyExcinfo) (exctype : String) : RaisedExc :=
  match info.type with
  | some t =>
    match info.msg with
    | some m => .withMsg exctype (t ++ ": " ++ m)
    | Option.none => .withMsg exctype t
  | Option.none =>
    match info.msg with
    | some m => .withMsg exctype m
    | Option.none => .bare exctype

/-- `_PyXI_errcode`. -/
inductive XIErrCode where
  | noError
  | uncaughtException
  | otherErr
  | noMemory
  | alreadyRunning
  | mainNsFailure
  | applyNsFailure
  | notShareable
deriving DecidableEq, Repr

/-- `_PyXI_exception_info`: the structured code, the snapshot of the
uncaught exception, and the interpreter the failure happened in. -/
structure XIExcInfo where
  code : XIErrCode
  uncaught : PyExcinfo
  interpid : Int
deriving DecidableEq, Repr

/-- `_PyXI_InitExceptionInfo` (code and snapshot parts): for
`uncaughtException` snapshot the exception object; for any other code store
the code and clear the snapshot.  Snapshot copying is modelled as always
succeeding, so the no-memory degradation path is not taken. -/
def _PyXI_InitExceptionInfo (excobj : Option PyErrState) (code : XIErrCode) :
    XIErrCode × PyExcinfo :=
  if code = .uncaughtException then
    match excobj with
    | some e => (.uncaughtException, _Py_excinfo_InitFromException e)
    | Option.none => (.uncaughtException, ⟨Option.none, Option.none⟩)
  else
    (code, ⟨Option.none, Option.none⟩)

/- ## Sessions -/

/-- `_PyXI_session`. -/
structure XISession where
  own_init_tstate : Bool
  init_tstate : Option Int
  prev_tstate : Option Int
  running : Bool
  main_ns : Bool
  exc_override : Option XIErrCode
  exc : Option XIExcInfo
deriving DecidableEq, Repr

/-- A session before `_PyXI_Enter`. -/
def freshSession : XISession :=
  ⟨false, Option.none, Option.none, false, false, Option.none, Option.none⟩

/-- The state a session enter acts on: the interpreter of the calling
thread, the target interpreter, the running-main flag of the target
(modelled from the spec, see `setRunningMain`), and the pending exception of
the current thread. -/
structure XIWorld where
  curInterp : Int
  targetInterp : Int
  targetRunningMain : Bool
  curExc : Option PyErrState
deriving DecidableEq, Repr

/-- Modelled from the spec: `_PyInterpreterState_SetRunningMain` and
`_PyInterpreterState_FailIfRunningMain` live in pystate.c, outside this
source tree.  The running-main flag is a mutually exclusive single-owner
flag: setting it fails, raising an error and leaving the flag exactly as the
other owner set it, when it is already set. -/
def setRunningMain (running : Bool) : Int × Bool × Option PyErrState :=
  if running then (-1, running, some ⟨"RuntimeError", "interpreter already running"⟩)
  else (0, true, Option.none)

/-- `_enter_session`: switch the thread to the target interpreter, creating
a fresh thread state (and remembering that this session owns it) when the
caller was on a different interpreter. -/
def _enter_session (w : XIWorld) : XIWorld × XISession :=
  let s :=
    if w.targetInterp = w.curInterp then
      { freshSession with init_tstate := some w.curInterp, prev_tstate := some w.curInterp }
    else
      { freshSession with own_init_tstate := true, init_tstate := some w.targetInterp,
                          prev_tstate := some w.curInterp }
  ({ w with curInterp := w.targetInterp }, s)

/-- `_exit_session`: drop the cached main namespace, clear the running-main
flag only when this session set it, switch back to the previous thread
state (destroying the one this session created) and reset the session. -/
def _exit_session (w : XIWorld) (s : XISession) : XIWorld × XISession :=
  let s1 := { s with main_ns := false }
  let w1 := if s1.running then { w with targetRunningMain := false } else w
  let s2 := { s1 with running := false }
  let w2 :=
    match s2.prev_tstate with
    | some p => { w1 with curInterp := p }
    | Option.none => w1
  (w2, { s2 with own_init_tstate := false, prev_tstate := Option.none,
                 init_tstate := Option.none })

/-- `_capture_current_exception`: a no-op without a pending exception.
Otherwise consume the override code (defaulting to `uncaughtException`);
for `alreadyRunning` the live exception is discarded unread, for every
other code it is popped and snapshotted, after which an override code
replaces the code of the snapshot.  The pending exception is gone either
way and the result is stored in the session. -/
def _capture_current_exception (w : XIWorld) (s : XISession) : XIWorld × XISession :=
  match w.curExc with
  | Option.none => (w, s)
  | some live =>
    let override := s.exc_override
    let errcode := override.getD .uncaughtException
    let excval : Option PyErrState :=
      if errcode = .alreadyRunning then Option.none else some live
    let interpid : Int := s.init_tstate.getD (-1)
    let exc : XIExcInfo :=
      match excval with
      | Option.none =>
        let (c, u) := _PyXI_InitExceptionInfo Option.none errcode
        ⟨c, u, interpid⟩
      | some e =>
        let (c, u) := _PyXI_InitExceptionInfo (some e) .uncaughtException
        if override.isSome then ⟨errcode, u, interpid⟩ else ⟨c, u, interpid⟩
    ({ w with curExc := Option.none },
     { s with exc_override := Option.none, exc := some exc })

/-- Outcome of converting the optional incoming namespace before the
context switch (`_PyXI_NamespaceFromDict` in step 1 of the enter): no
namespace was supplied, conversion succeeded, or conversion failed. -/
inductive NsConvert where
  | noNamespace
  | converted
  | convertFailed
deriving DecidableEq, Repr

/-- `_PyXI_Enter` (with the conversion of the incoming bindings abstracted
to its outcome): a failed conversion aborts before any switch; otherwise
switch to the target, try to take its running-main flag — on failure record
the `alreadyRunning` override, capture, unwind through `_exit_session` and
fail — else mark the session running, cache the main namespace (its
retrieval, from pystate.c, is modelled from the spec as succeeding) and
apply the converted namespace (reconstruction of the already-validated
handles is modelled as succeeding). -/
def _PyXI_Enter (w : XIWorld) (ns : NsConvert) : Int × XIWorld × XISession :=
  match ns with
  | .convertFailed => (-1, w, freshSession)
  | _ =>
    let (w1, s1) := _enter_session w
    match setRunningMain w1.targetRunningMain with
    | (r, flag, raised) =>
      if r < 0 then
        let w2 := { w1 with targetRunningMain := flag, curExc := raised }
        let s2 := { s1 with exc_override := some XIErrCode.alreadyRunning }
        let (w3, s3) := _capture_current_exception w2 s2
        let (w4, s4) := _exit_session w3 s3
        (-1, w4, s4)
      else
        let w2 := { w1 with targetRunningMain := flag }
        let s2 := { s1 with running := true, main_ns := true }
        (0, w2, s2)

/- ## Shared namespaces -/

/-- A `_PyXI_namespace_item`: an owned copy of the name and an optional
dynamically allocated `_PyCrossInterpreterData`. -/
structure NsItem where
  name : String
  data : Option XIData
deriving DecidableEq, Repr

/-- A source or destination bindings dict, as an association list. -/
def dictGet : List (String × PyValue) → String → Option PyValue
  | [], _ => Option.none
  | (k, v) :: rest, key => if k = key then some v else dictGet rest key

/-- `PyDict_SetItem` on the association-list dict. -/
def dictSet : List (String × PyValue) → String → PyValue → List (String × PyValue)
  | [], key, v => [(key, v)]
  | (k, w) :: rest, key, v =>
      if k = key then (key, v) :: rest else (k, w) :: dictSet rest key v

/-- `_sharedns_init`: reject an empty collection of names, otherwise
allocate one item per name with no value; name copying is modelled as
always succeeding. -/
def _sharedns_init (names : List String) : Option (List NsItem) :=
  if names.length = 0 then Option.none
  else some (names.map (fun n => ⟨n, Option.none⟩))

/-- `_PyXI_NamespaceFromNames`: allocate a namespace and fill in the names;
on failure (in particular for an empty collection, whose error is cleared
but still yields no namespace) nothing is returned. -/
def _PyXI_NamespaceFromNames (names : List String) : Option (List NsItem) :=
  _sharedns_init names

/-- State effect of `_sharednsitem_clear_value`: the item ends with no
value (the release actions it performs are modelled separately by
`_sharednsitem_clear_value_acts`). -/
def clearValueState (item : NsItem) : NsItem :=
  { item with data := Option.none }

/-- `_sharednsitem_clear_value` with its release actions: detach the data
and push it through `_release_xid_data` requesting the raw-free variant
(the struct was allocated with `PyMem_RawMalloc`). -/
def _sharednsitem_clear_value_acts (env : RelEnv) (item : NsItem) :
    NsItem × List RelAct :=
  match item.data with
  | some d => ({ item with data := Option.none }, (_release_xid_data env d true).2.2)
  | Option.none => (item, [])

/-- `_sharednsitem_copy_from_ns` (with `_sharednsitem_set_value` inlined):
leave the item empty when its name is absent from the source bindings;
otherwise produce cross-interpreter data for the value — on failure the
freshly allocated struct is freed again, the item keeps no value and the
copy fails.  The producer is a parameter (`_PyObject_GetCrossInterpreterData`
over whatever registry is active). -/
def _sharednsitem_copy_from_ns (bindings : List (String × PyValue))
    (produce : PyValue → Option XIData) (item : NsItem) : Option NsItem :=
  match dictGet bindings item.name with
  | Option.none => some item
  | some v =>
    match produce v with
    | Option.none => Option.none
    | some d => some { item with data := some d }

/-- `_PyXI_FillNamespaceFromDict` (session argument NULL): copy every item
from the source bindings; if any copy fails, clear the values already set
and fail, leaving the remaining items untouched. -/
def _PyXI_FillNamespaceFromDict (bindings : List (String × PyValue))
    (produce : PyValue → Option XIData) : List NsItem → Bool × List NsItem
  | [] => (true, [])
  | item :: rest =>
    match _sharednsitem_copy_from_ns bindings produce item with
    | Option.none => (false, clearValueState item :: rest)
    | some item2 =>
      match _PyXI_FillNamespaceFromDict bindings produce rest with
      | (true, rest2) => (true, item2 :: rest2)
      | (false, rest2) => (false, clearValueState item2 :: rest2)

/-- `_sharednsitem_apply`: bind the reconstructed value when the item has
data, the supplied default when it has none; fails when reconstruction
fails. -/
def _sharednsitem_apply (item : NsItem) (ns : List (String × PyValue))
    (dflt : PyValue) : Option (List (String × PyValue)) :=
  match item.data with
  | some d =>
    match _PyCrossInterpreterData_NewObject d with
    | some v => some (dictSet ns item.name v)
    | Option.none => Option.none
  | Option.none => some (dictSet ns item.name dflt)

/-- `_PyXI_ApplyNamespace`: apply the items in order, aborting on the first
failure. -/
def _PyXI_ApplyNamespace : List NsItem → List (String × PyValue) → PyValue →
    Option (List (String × PyValue))
  | [], ns, _ => some ns
  | item :: rest, ns, dflt =>
    match _sharednsitem_apply item ns dflt with
    | some ns2 => _PyXI_ApplyNamespace rest ns2 dflt
    | Option.none => Option.none

/-- A copy of item `it` fails: its name is bound in the source bindings to
a value the producer rejects. -/
def copyFails (bindings : List (String × PyValue))
    (produce : PyValue → Option XIData) (item : NsItem) : Bool :=
  match dictGet bindings item.name with
  | some v => (produce v).isNone
  | Option.none => false

/-- Classes of the registry entries that have not been (lazily) evicted:
entries whose weakly tracked class is destroyed do not count, since any scan
removes them before they can match. -/
def regAliveClasses (reg : List RegItem) : List Nat :=
  (reg.filter (fun e => decide (e.weakAlive ≠ some false))).map (fun e => e.cls)

/-- Registry invariant maintained by `_PyCrossInterpreterData_RegisterClass`
(which bumps the reference count of an existing entry instead of adding a
duplicate): each class has at most one live entry. -/
def RegWF (reg : List RegItem) : Prop := (regAliveClasses reg).Nodup

/- ## Theorems -/

/-- C1: for every value of a registered builtin shareable kind (None,
booleans, integers within the `Py_ssize_t` range, floats, bytes, str),
producing cross-interpreter data via the builtin registry and applying its
`new_object` function yields a value equal to the original — same bytes,
text, number, boolean. -/
theorem builtin_roundtrip (interpid : Int) (v : PyValue)
    (hid : 0 ≤ interpid) (hv : isBuiltinShareable v) :
    reconstructProduced builtinRegistry runBuiltin interpid v = some v := by
  cases v with
  | none =>
      simp [reconstructProduced, _PyObject_GetCrossInterpreterData,
        _lookup_getdata_from_registry, builtinRegistry, _xidregistry_find_type,
        typeIdOf, runBuiltin, _none_shared, _PyCrossInterpreterData_Init,
        _check_xidata, hid, _PyCrossInterpreterData_NewObject, runNewObject]
  | bool b =>
      cases b <;>
      simp [reconstructProduced, _PyObject_GetCrossInterpreterData,
        _lookup_getdata_from_registry, builtinRegistry, _xidregistry_find_type,
        typeIdOf, runBuiltin, _bool_shared, _PyCrossInterpreterData_Init,
        _check_xidata, hid, _PyCrossInterpreterData_NewObject, runNewObject]
  | int n =>
      obtain ⟨h1, h2⟩ := hv
      simp [reconstructProduced, _PyObject_GetCrossInterpreterData,
        _lookup_getdata_from_registry, builtinRegistry, _xidregistry_find_type,
        typeIdOf, runBuiltin, _long_shared, h1, h2, _PyCrossInterpreterData_Init,
        _check_xidata, hid, _PyCrossInterpreterData_NewObject, runNewObject]
  | float bits =>
      simp [reconstructProduced, _PyObject_GetCrossInterpreterData,
        _lookup_getdata_from_registry, builtinRegistry, _xidregistry_find_type,
        typeIdOf, runBuiltin, _float_shared, _PyCrossInterpreterData_InitWithSize,
        _PyCrossInterpreterData_Init, _check_xidata, hid,
        _PyCrossInterpreterData_NewObject, runNewObject]
  | bytes bs =>
      simp [reconstructProduced, _PyObject_GetCrossInterpreterData,
        _lookup_getdata_from_registry, builtinRegistry, _xidregistry_find_type,
        typeIdOf, runBuiltin, _bytes_shared, _PyCrossInterpreterData_InitWithSize,
        _PyCrossInterpreterData_Init, _check_xidata, hid,
        _PyCrossInterpreterData_NewObject, runNewObject]
  | str s =>
      simp [reconstructProduced, _PyObject_GetCrossInterpreterData,
        _lookup_getdata_from_registry, builtinRegistry, _xidregistry_find_type,
        typeIdOf, runBuiltin, _str_shared, _PyCrossInterpreterData_InitWithSize,
        _PyCrossInterpreterData_Init, _check_xidata, hid,
        _PyCrossInterpreterData_NewObject, runNewObject]
  | obj ty => exact absurd hv not_false

/-- Witness for C1 at a concrete input. -/
theorem builtin_roundtrip_witness :
    (0 : Int) ≤ 0 ∧ isBuiltinShareable (.bytes [1, 2])
    ∧ reconstructProduced builtinRegistry runBuiltin 0 (.bytes [1, 2])
        = some (.bytes [1, 2]) :=
  ⟨le_refl 0, trivial, builtin_roundtrip 0 (.bytes [1, 2]) (le_refl 0) trivial⟩

/-- C4: applying an exception snapshot raises a failure of the target
exception kind rendered as "type: msg" when both were captured, as just the
message or just the type name when only one was, and bare when neither was;
composed with the snapshot step, a captured exception re-renders exactly as
its type name, a colon and a space, and its message. -/
theorem excinfo_apply_format (t m exctype : String) (e : PyErrState) :
    _Py_excinfo_Apply ⟨some t, some m⟩ exctype = .withMsg exctype (t ++ ": " ++ m)
    ∧ _Py_excinfo_Apply ⟨some t, Option.none⟩ exctype = .withMsg exctype t
    ∧ _Py_excinfo_Apply ⟨Option.none, some m⟩ exctype = .withMsg exctype m
    ∧ _Py_excinfo_Apply ⟨Option.none, Option.none⟩ exctype = .bare exctype
    ∧ _Py_excinfo_Apply (_Py_excinfo_InitFromException e) exctype
        = .withMsg exctype (e.typeName ++ ": " ++ e.msg) :=
  ⟨rfl, rfl, rfl, rfl, rfl⟩

/-- C5: releasing a struct that a first release already transitioned to the
released state (payload cleared, retained object dropped) is a no-op that
succeeds: no free runs a second time, the state is unchanged. -/
theorem release_idempotent (env : RelEnv) (d : XIData)
    (hdata : d.data = Option.none) (hobj : d.obj = Option.none) :
    _PyCrossInterpreterData_Release env d = (0, some d, ([] : List RelAct)) := by
  have hd : { d with data := Option.none } = d := by
    cases d
    simp_all
  rw [_PyCrossInterpreterData_Release, _xidata_release, if_pos ⟨Or.inl hdata, hobj⟩]
  simp [hd]

/-- Witness for C5 at a concrete input: the state of a bytes handle after
`_xidata_clear` ran (free function still set, payload and object gone). -/
theorem release_idempotent_witness :
    (⟨Option.none, Option.none, 0, some .bytesObj, true⟩ : XIData).data = Option.none
    ∧ _PyCrossInterpreterData_Release ⟨0, [0]⟩
        ⟨Option.none, Option.none, 0, some .bytesObj, true⟩
      = (0, some ⟨Option.none, Option.none, 0, some .bytesObj, true⟩, []) :=
  ⟨rfl, release_idempotent ⟨0, [0]⟩ ⟨Option.none, Option.none, 0, some .bytesObj, true⟩ rfl rfl⟩

/-- C10 (code bug): clearing a namespace item that holds a produced bytes
handle — owner interpreter 0, current interpreter 0 — requests the raw-free
release variant, yet because the dispatch in `_release_xid_data` is
inverted it performs only the payload clear and never raw-frees the
`PyMem_RawMalloc`-ed struct; the helper with the dispatch the spec
describes does free it. -/
theorem clear_value_never_raw_frees :
    (_sharednsitem_clear_value_acts ⟨0, [0]⟩
        ⟨"x", some ⟨some (.bytesData [1, 2] 2), some (.bytes [1, 2]), 0, some .bytesObj, true⟩⟩).2
      = [RelAct.freePayload, RelAct.decrefObj]
    ∧ RelAct.rawFreeHandle ∉ (_sharednsitem_clear_value_acts ⟨0, [0]⟩
        ⟨"x", some ⟨some (.bytesData [1, 2] 2), some (.bytes [1, 2]), 0, some .bytesObj, true⟩⟩).2
    ∧ (_release_xid_data_spec ⟨0, [0]⟩
        ⟨some (.bytesData [1, 2] 2), some (.bytes [1, 2]), 0, some .bytesObj, true⟩ true).2.2
      = [RelAct.freePayload, RelAct.decrefObj, RelAct.rawFreeHandle] := by
  refine ⟨by decide, by decide, by decide⟩

/-- C9 (counterexample): a capture whose override code is `notShareable`
(set by `_propagate_not_shareable_error`) does use the override code, but it
does not discard the live exception unread: its type name and message are
snapshotted. -/
theorem capture_override_cex :
    (_capture_current_exception ⟨0, 1, false, some ⟨"T", "m"⟩⟩
        { freshSession with exc_override := some .notShareable, init_tstate := some 1 }).2.exc
      = some ⟨.notShareable, ⟨some "T", some "m"⟩, 1⟩
    ∧ (some "T" : Option String) ≠ Option.none :=
  ⟨rfl, by simp⟩

/-- C9 (amended): with a pending failure and an override code set, capture
stores the override code as the code of the snapshot; the live exception is
discarded without snapshotting only when that code is `alreadyRunning` —
for every other override code its type name and message are snapshotted
alongside the code. -/
theorem capture_override_code (w : XIWorld) (s : XISession) (live : PyErrState)
    (c : XIErrCode) (hexc : w.curExc = some live) (hov : s.exc_override = some c) :
    (_capture_current_exception w s).2.exc
      = some ⟨c,
          if c = .alreadyRunning then ⟨Option.none, Option.none⟩
          else ⟨some live.typeName, some live.msg⟩,
          s.init_tstate.getD (-1)⟩ := by
  obtain ⟨cur, tgt, run, cexc⟩ := w
  simp only at hexc
  subst hexc
  by_cases hc : c = .alreadyRunning
  · subst hc
    simp [_capture_current_exception, hov, _PyXI_InitExceptionInfo]
  · simp [_capture_current_exception, hov, hc, _PyXI_InitExceptionInfo,
      _Py_excinfo_InitFromException]

/-- Witness for the amended C9 at a concrete input. -/
theorem capture_override_code_witness :
    (_capture_current_exception ⟨0, 1, false, some ⟨"E", "boom"⟩⟩
        { freshSession with exc_override := some .alreadyRunning, init_tstate := some 1 }).2.exc
      = some ⟨.alreadyRunning, ⟨Option.none, Option.none⟩, 1⟩ := by
  have h := capture_override_code ⟨0, 1, false, some ⟨"E", "boom"⟩⟩
    { freshSession with exc_override := some .alreadyRunning, init_tstate := some 1 }
    ⟨"E", "boom"⟩ .alreadyRunning rfl rfl
  simpa using h

/-- C3: entering a session on an interpreter whose running-main flag is
already set by another owner fails, captures the `alreadyRunning` error
code, and the unwind of the failed enter leaves the flag exactly as the
other owner set it (the session never marked itself running, and
`_exit_session` clears the flag only for a session that did). -/
theorem enter_already_running (w : XIWorld) (ns : NsConvert)
    (hrun : w.targetRunningMain = true) (hns : ns ≠ NsConvert.convertFailed) :
    (_PyXI_Enter w ns).1 = -1
    ∧ (_PyXI_Enter w ns).2.1.targetRunningMain = true
    ∧ (_PyXI_Enter w ns).2.2.exc
        = some ⟨.alreadyRunning, ⟨Option.none, Option.none⟩, w.targetInterp⟩
    ∧ (_PyXI_Enter w ns).2.2.running = false := by
  obtain ⟨cur, tgt, run, cexc⟩ := w
  simp only at hrun
  subst hrun
  have hbody :
      (_PyXI_Enter ⟨cur, tgt, true, cexc⟩ NsConvert.noNamespace).1 = -1
      ∧ (_PyXI_Enter ⟨cur, tgt, true, cexc⟩ NsConvert.noNamespace).2.1.targetRunningMain = true
      ∧ (_PyXI_Enter ⟨cur, tgt, true, cexc⟩ NsConvert.noNamespace).2.2.exc
          = some ⟨.alreadyRunning, ⟨Option.none, Option.none⟩, tgt⟩
      ∧ (_PyXI_Enter ⟨cur, tgt, true, cexc⟩ NsConvert.noNamespace).2.2.running = false := by
    by_cases hti : tgt = cur <;>
      simp [_PyXI_Enter, _enter_session, setRunningMain, _capture_current_exception,
        _PyXI_InitExceptionInfo, _exit_session, freshSession, hti]
  cases ns with
  | convertFailed => exact absurd rfl hns
  | noNamespace => exact hbody
  | converted => exact hbody

/-- Witness for C3 at a concrete input. -/
theorem enter_already_running_witness :
    (_PyXI_Enter ⟨0, 1, true, Option.none⟩ NsConvert.noNamespace).1 = -1
    ∧ (_PyXI_Enter ⟨0, 1, true, Option.none⟩ NsConvert.noNamespace).2.1.targetRunningMain
        = true :=
  ⟨(enter_already_running ⟨0, 1, true, Option.none⟩ NsConvert.noNamespace rfl
      (by decide)).1,
   (enter_already_running ⟨0, 1, true, Option.none⟩ NsConvert.noNamespace rfl
      (by decide)).2.1⟩

/-- A successful copy never changes the name of the item. -/
theorem copy_from_ns_name (bindings : List (String × PyValue))
    (produce : PyValue → Option XIData) (item item2 : NsItem)
    (h : _sharednsitem_copy_from_ns bindings produce item = some item2) :
    item2.name = item.name := by
  unfold _sharednsitem_copy_from_ns at h
  cases hg : dictGet bindings item.name with
  | none => rw [hg] at h; cases h; rfl
  | some v =>
      rw [hg] at h
      have h2 : (match produce v with
          | Option.none => (Option.none : Option NsItem)
          | some d => some { item with data := some d }) = some item2 := h
      cases hp : produce v with
      | none => rw [hp] at h2; cases h2
      | some d => rw [hp] at h2; cases h2; rfl

/-- A failing copy condition makes `_sharednsitem_copy_from_ns` fail. -/
theorem copy_from_ns_fails (bindings : List (String × PyValue))
    (produce : PyValue → Option XIData) (item : NsItem)
    (h : copyFails bindings produce item = true) :
    _sharednsitem_copy_from_ns bindings produce item = Option.none := by
  unfold copyFails at h
  unfold _sharednsitem_copy_from_ns
  cases hg : dictGet bindings item.name with
  | none => rw [hg] at h; cases h
  | some v =>
      rw [hg] at h
      have h2 : (produce v).isNone = true := h
      have hp : produce v = Option.none := Option.isNone_iff_eq_none.mp h2
      show (match produce v with
          | Option.none => (Option.none : Option NsItem)
          | some d => some { item with data := some d }) = Option.none
      rw [hp]

/-- C2: filling an initialized namespace (no item has a value yet) from
source bindings in which the name of some item is bound to a value the producer
rejects fails as a whole, and afterwards no item of the namespace has
cross-interpreter data: values set for earlier items were cleared, the
failing item kept none, later items were not touched (the names are exactly
the original ones, in order). -/
theorem fill_namespace_failure (bindings : List (String × PyValue))
    (produce : PyValue → Option XIData) (items : List NsItem)
    (hinit : ∀ it ∈ items, it.data = Option.none)
    (hfail : ∃ it ∈ items, copyFails bindings produce it = true) :
    (_PyXI_FillNamespaceFromDict bindings produce items).1 = false
    ∧ (∀ it ∈ (_PyXI_FillNamespaceFromDict bindings produce items).2,
        it.data = Option.none)
    ∧ (_PyXI_FillNamespaceFromDict bindings produce items).2.map NsItem.name
        = items.map NsItem.name := by
  induction items with
  | nil =>
      obtain ⟨it, hmem, _⟩ := hfail
      cases hmem
  | cons item rest ih =>
      cases hcopy : _sharednsitem_copy_from_ns bindings produce item with
      | none =>
          refine ⟨?_, ?_, ?_⟩
          · simp [_PyXI_FillNamespaceFromDict, hcopy]
          · intro it hit
            simp only [_PyXI_FillNamespaceFromDict, hcopy] at hit
            rcases List.mem_cons.mp hit with h | h
            · subst h; rfl
            · exact hinit it (List.mem_cons_of_mem _ h)
          · simp [_PyXI_FillNamespaceFromDict, hcopy, clearValueState]
      | some item2 =>
          have hfail2 : ∃ it ∈ rest, copyFails bindings produce it = true := by
            obtain ⟨it, hmem, hf⟩ := hfail
            rcases List.mem_cons.mp hmem with h | h
            · subst h
              rw [copy_from_ns_fails bindings produce it hf] at hcopy
              cases hcopy
            · exact ⟨it, h, hf⟩
          have hinit2 : ∀ it ∈ rest, it.data = Option.none :=
            fun it h => hinit it (List.mem_cons_of_mem _ h)
          obtain ⟨ih1, ih2, ih3⟩ := ih hinit2 hfail2
          cases hrest : _PyXI_FillNamespaceFromDict bindings produce rest with
          | mk b rest2 =>
              rw [hrest] at ih1 ih2 ih3
              simp only at ih1 ih2 ih3
              subst ih1
              refine ⟨?_, ?_, ?_⟩
              · simp [_PyXI_FillNamespaceFromDict, hcopy, hrest]
              · intro it hit
                simp only [_PyXI_FillNamespaceFromDict, hcopy, hrest] at hit
                rcases List.mem_cons.mp hit with h | h
                · subst h; rfl
                · exact ih2 it h
              · simp only [_PyXI_FillNamespaceFromDict, hcopy, hrest, List.map_cons]
                rw [ih3]
                simp [clearValueState, copy_from_ns_name bindings produce item item2 hcopy]

/-- Witness for C2 at a concrete input: names a, b, c where b is bound to a
value of an unregistered class. -/
theorem fill_namespace_failure_witness :
    (_PyXI_FillNamespaceFromDict
        [("a", .int 1), ("b", .obj 9), ("c", .int 2)]
        (fun v => (_PyObject_GetCrossInterpreterData builtinRegistry runBuiltin 0 v).toOption)
        [⟨"a", Option.none⟩, ⟨"b", Option.none⟩, ⟨"c", Option.none⟩]).1 = false :=
  (fill_namespace_failure
      [("a", .int 1), ("b", .obj 9), ("c", .int 2)]
      (fun v => (_PyObject_GetCrossInterpreterData builtinRegistry runBuiltin 0 v).toOption)
      [⟨"a", Option.none⟩, ⟨"b", Option.none⟩, ⟨"c", Option.none⟩]
      (by decide)
      ⟨⟨"b", Option.none⟩, by decide, by decide⟩).1

/-- Every struct state a release can leave behind keeps the owning
interpreter id the release started from. -/
theorem xidata_release_interpid (env : RelEnv) (d : XIData) (rawfree : Bool)
    (d2 : XIData) (h : (_xidata_release env d rawfree).2.1 = some d2) :
    d2.interpid = d.interpid := by
  unfold _xidata_release _Py_CallInInterpreterAndRawFree _Py_CallInInterpreter
    _xidata_clear at h
  split_ifs at h <;> simp_all <;> simp [← h]

/-- C6: every successful produce stamps the struct with the id of the
interpreter current at the moment of the call; that id is non-negative; and
no release, performed from any interpreter and with either variant, ever
changes the owning id of a surviving struct (reconstruction reads the
struct without writing it, by definition of `runNewObject`). -/
theorem produce_owner_integrity (reg : List RegItem)
    (run : GetData → Int → PyValue → Option XIData) (interpid : Int) (v : PyValue)
    (d : XIData)
    (h : _PyObject_GetCrossInterpreterData reg run interpid v = Except.ok d) :
    d.interpid = interpid ∧ 0 ≤ interpid
    ∧ ∀ env rawfree d2, (_xidata_release env d rawfree).2.1 = some d2 →
        d2.interpid = interpid := by
  unfold _PyObject_GetCrossInterpreterData at h
  cases hl : _lookup_getdata_from_registry reg (typeIdOf v) with
  | none => rw [hl] at h; cases h
  | some g =>
      rw [hl] at h
      have h2 : (match run g interpid v with
          | Option.none => (Except.error ProduceErr.getdataFailed : Except ProduceErr XIData)
          | some d0 =>
            if _check_xidata { d0 with interpid := interpid } then
              Except.ok { d0 with interpid := interpid }
            else Except.error ProduceErr.invalidData) = Except.ok d := h
      cases hr : run g interpid v with
      | none => rw [hr] at h2; cases h2
      | some d0 =>
          rw [hr] at h2
          have h3 : (if _check_xidata { d0 with interpid := interpid } = true then
                (Except.ok { d0 with interpid := interpid } : Except ProduceErr XIData)
              else Except.error ProduceErr.invalidData) = Except.ok d := h2
          by_cases hck : _check_xidata { d0 with interpid := interpid } = true
          · rw [if_pos hck] at h3
            cases h3
            have hle : 0 ≤ interpid := by
              unfold _check_xidata at hck
              simp at hck
              exact hck.1
            exact ⟨rfl, hle, fun env rawfree d2 hrel =>
              (xidata_release_interpid env _ rawfree d2 hrel).trans rfl⟩
          · rw [if_neg hck] at h3
            cases h3

/-- Witness for C6 at a concrete input. -/
theorem produce_owner_integrity_witness :
    _PyObject_GetCrossInterpreterData builtinRegistry runBuiltin 0 (.int 42)
      = Except.ok ⟨some (.scalar 42), Option.none, 0, some .longObj, false⟩
    ∧ (⟨some (.scalar 42), Option.none, 0, some .longObj, false⟩ : XIData).interpid = 0
    ∧ (0 : Int) ≤ 0 := by
  have h : _PyObject_GetCrossInterpreterData builtinRegistry runBuiltin 0 (.int 42)
      = Except.ok ⟨some (.scalar 42), Option.none, 0, some .longObj, false⟩ := by rfl
  have h2 := produce_owner_integrity builtinRegistry runBuiltin 0 (.int 42)
    ⟨some (.scalar 42), Option.none, 0, some .longObj, false⟩ h
  exact ⟨h, h2.1, h2.2.1⟩

/-- C8: building a namespace from an empty collection of names yields
nothing, while building one from a single name succeeds; filling it from
bindings that do not contain the name leaves the item without data and is
not an error; and applying the namespace binds the supplied default value
for that name. -/
theorem namespace_from_names_edge (name : String) (bindings : List (String × PyValue))
    (produce : PyValue → Option XIData) (dflt : PyValue)
    (habs : dictGet bindings name = Option.none) :
    _PyXI_NamespaceFromNames ([] : List String) = Option.none
    ∧ _PyXI_NamespaceFromNames [name] = some [⟨name, Option.none⟩]
    ∧ _PyXI_FillNamespaceFromDict bindings produce [⟨name, Option.none⟩]
        = (true, [⟨name, Option.none⟩])
    ∧ ∀ dest : List (String × PyValue),
        _PyXI_ApplyNamespace [⟨name, Option.none⟩] dest dflt
          = some (dictSet dest name dflt) := by
  refine ⟨rfl, by simp [_PyXI_NamespaceFromNames, _sharedns_init], ?_, ?_⟩
  · simp [_PyXI_FillNamespaceFromDict, _sharednsitem_copy_from_ns, habs]
  · intro dest
    simp [_PyXI_ApplyNamespace, _sharednsitem_apply]

/-- Witness for C8 at a concrete input. -/
theorem namespace_from_names_edge_witness :
    _PyXI_NamespaceFromNames ([] : List String) = Option.none
    ∧ _PyXI_ApplyNamespace [⟨"x", Option.none⟩] [] (.int 7) = some [("x", .int 7)] := by
  have h := namespace_from_names_edge "x" [("y", PyValue.none)]
    (fun _ => Option.none) (.int 7) rfl
  exact ⟨h.1, by rw [h.2.2.2 []]; rfl⟩

/-- A dead head entry contributes nothing to the live classes. -/
theorem regAliveClasses_cons_dead (e : RegItem) (rest : List RegItem)
    (h : e.weakAlive = some false) :
    regAliveClasses (e :: rest) = regAliveClasses rest := by
  simp [regAliveClasses, List.filter_cons, h]

/-- A live head entry contributes its class to the live classes. -/
theorem regAliveClasses_cons_alive (e : RegItem) (rest : List RegItem)
    (h : ¬ e.weakAlive = some false) :
    regAliveClasses (e :: rest) = e.cls :: regAliveClasses rest := by
  simp [regAliveClasses, List.filter_cons, h]

/-- A class with no live entry is not found by the scan. -/
theorem find_type_eq_none (reg : List RegItem) (cls : Nat)
    (h : cls ∉ regAliveClasses reg) :
    (_xidregistry_find_type reg cls).1 = Option.none := by
  induction reg with
  | nil => rfl
  | cons e rest ih =>
      by_cases hd : e.weakAlive = some false
      · rw [regAliveClasses_cons_dead e rest hd] at h
        simpa [_xidregistry_find_type, hd] using ih h
      · rw [regAliveClasses_cons_alive e rest hd] at h
        have hne : ¬ e.cls = cls := fun hh => h (hh ▸ List.mem_cons_self _ _)
        have h2 : cls ∉ regAliveClasses rest := fun hh => h (List.mem_cons_of_mem _ hh)
        simpa [_xidregistry_find_type, hd, hne] using ih h2

/-- When the registry scan finds nothing for the class of a value, produce
fails with the not-shareable error. -/
theorem produce_not_shareable (reg : List RegItem)
    (run : GetData → Int → PyValue → Option XIData) (interpid : Int) (v : PyValue)
    (h : (_xidregistry_find_type reg (typeIdOf v)).1 = Option.none) :
    _PyObject_GetCrossInterpreterData reg run interpid v
      = Except.error ProduceErr.notShareable := by
  unfold _PyObject_GetCrossInterpreterData _lookup_getdata_from_registry
  rw [h]
  rfl

/-- Core behaviour of the unregister scan on a well-formed registry: the
result reports whether a live entry was found; a found entry with count one
is removed (nothing is found afterwards), one with a larger count stays
with the count decremented. -/
theorem unregister_core (reg : List RegItem) (cls : Nat) (hwf : RegWF reg) :
    ((_PyCrossInterpreterData_UnregisterClass reg cls).1
        = ((_xidregistry_find_type reg cls).1).isSome)
    ∧ ∀ e, (_xidregistry_find_type reg cls).1 = some e →
        (e.refcount ≤ 1 →
          (_xidregistry_find_type (_PyCrossInterpreterData_UnregisterClass reg cls).2 cls).1
            = Option.none)
        ∧ (1 < e.refcount →
          (_xidregistry_find_type (_PyCrossInterpreterData_UnregisterClass reg cls).2 cls).1
            = some { e with refcount := e.refcount - 1 }) := by
  induction reg with
  | nil => exact ⟨rfl, fun e h => nomatch h⟩
  | cons ent rest ih =>
      by_cases hd : ent.weakAlive = some false
      · have hwf2 : RegWF rest := by
          unfold RegWF at hwf ⊢
          rwa [regAliveClasses_cons_dead ent rest hd] at hwf
        simpa [_PyCrossInterpreterData_UnregisterClass, _xidregistry_find_type, hd]
          using ih hwf2
      · have hwfc : ent.cls ∉ regAliveClasses rest ∧ (regAliveClasses rest).Nodup := by
          unfold RegWF at hwf
          rw [regAliveClasses_cons_alive ent rest hd] at hwf
          exact List.nodup_cons.mp hwf
        by_cases hc : ent.cls = cls
        · constructor
          · by_cases hz : ent.refcount - 1 = 0 <;>
              simp [_PyCrossInterpreterData_UnregisterClass, _xidregistry_find_type,
                hd, hc, hz]
          · intro e he
            have he2 : ent = e := by
              simpa [_xidregistry_find_type, hd, hc] using he
            subst he2
            constructor
            · intro h1
              have hz : ent.refcount - 1 = 0 := Nat.sub_eq_zero_of_le h1
              have hnm : cls ∉ regAliveClasses rest := hc ▸ hwfc.1
              simp only [_PyCrossInterpreterData_UnregisterClass, if_neg hd, if_pos hc,
                if_pos hz]
              exact find_type_eq_none rest cls hnm
            · intro h1
              have hz : ¬ ent.refcount - 1 = 0 := by omega
              simp only [_PyCrossInterpreterData_UnregisterClass, if_neg hd, if_pos hc,
                if_neg hz]
              simp [_xidregistry_find_type, hd, hc]
        · have hwf2 : RegWF rest := hwfc.2
          obtain ⟨ih1, ih2⟩ := ih hwf2
          constructor
          · simpa [_PyCrossInterpreterData_UnregisterClass, _xidregistry_find_type, hd, hc]
              using ih1
          · intro e he
            have he2 : (_xidregistry_find_type rest cls).1 = some e := by
              simpa [_xidregistry_find_type, hd, hc] using he
            obtain ⟨c1, c2⟩ := ih2 e he2
            constructor
            · intro h1
              simpa [_PyCrossInterpreterData_UnregisterClass, _xidregistry_find_type, hd, hc]
                using c1 h1
            · intro h1
              simpa [_PyCrossInterpreterData_UnregisterClass, _xidregistry_find_type, hd, hc]
                using c2 h1

/-- C7: on a well-formed registry, unregister reports whether a live entry
for the class existed; an entry whose reference count reaches zero is
removed — after which a produce on a value of that class finds no producer
and fails with the not-shareable error — while an entry with a larger count
stays, with the count decremented. -/
theorem unregister_then_produce (reg : List RegItem) (cls : Nat) (hwf : RegWF reg) :
    ((_PyCrossInterpreterData_UnregisterClass reg cls).1
        = ((_xidregistry_find_type reg cls).1).isSome)
    ∧ ∀ e, (_xidregistry_find_type reg cls).1 = some e →
        (e.refcount ≤ 1 →
          (_xidregistry_find_type (_PyCrossInterpreterData_UnregisterClass reg cls).2 cls).1
              = Option.none
          ∧ ∀ run interpid v, typeIdOf v = cls →
              _PyObject_GetCrossInterpreterData
                  (_PyCrossInterpreterData_UnregisterClass reg cls).2 run interpid v
                = Except.error ProduceErr.notShareable)
        ∧ (1 < e.refcount →
          (_xidregistry_find_type (_PyCrossInterpreterData_UnregisterClass reg cls).2 cls).1
            = some { e with refcount := e.refcount - 1 }) := by
  obtain ⟨h1, h2⟩ := unregister_core reg cls hwf
  refine ⟨h1, fun e he => ?_⟩
  obtain ⟨c1, c2⟩ := h2 e he
  refine ⟨fun hle => ⟨c1 hle, fun run interpid v hty => ?_⟩, c2⟩
  exact produce_not_shareable _ run interpid v (hty ▸ c1 hle)

/-- Witness for C7 at a concrete input: a heap class with identifier 9 and
reference count one. -/
theorem unregister_then_produce_witness :
    (_PyCrossInterpreterData_UnregisterClass [⟨9, 1, .user 0, some true⟩] 9).1 = true
    ∧ _PyObject_GetCrossInterpreterData
        (_PyCrossInterpreterData_UnregisterClass [⟨9, 1, .user 0, some true⟩] 9).2
        runBuiltin 0 (.obj 9)
      = Except.error ProduceErr.notShareable := by
  have h := unregister_then_produce [⟨9, 1, .user 0, some true⟩] 9
    (by unfold RegWF; decide)
  refine ⟨by rw [h.1]; rfl, ?_⟩
  exact ((h.2 ⟨9, 1, .user 0, some true⟩ rfl).1 (le_refl 1)).2 runBuiltin 0 (.obj 9) rfl
